import Mathlib

/-!
Verification of the natural-language specification of the
`ai-database-query-agent` repository against a shallow embedding of its
Python source.  The embedding covers the safety validator, the query
optimizer, the SQL response cleaner, the LangGraph workflow, and the
database manager.  Regular-expression searches from the source are
embedded as explicit character-list scanners; Python string semantics
(`strip`, `upper`, `lower`, slicing) are modelled on their ASCII
fragment, which is the fragment exercised by SQL text.
-/

namespace AiDbAgent

/-- Word characters of the ASCII fragment of the regex class `\w`. -/
def isWordChar (c : Char) : Bool := c.isAlpha || c.isDigit || c == '_'

/-- Whitespace of the regex class `\s` (also the characters removed by
Python `str.strip`), ASCII fragment. -/
def isPySpace (c : Char) : Bool :=
  c == ' ' || c == '\t' || c == '\n' || c == '\r' || c == '\x0b' || c == '\x0c'

/-- Python `str.strip()` on a character list. -/
def pyStripList (l : List Char) : List Char :=
  ((l.dropWhile isPySpace).reverse.dropWhile isPySpace).reverse

/-- Python `str.strip()`. -/
def pyStrip (s : String) : String := String.mk (pyStripList s.toList)

/-- Python `str.upper()`, ASCII fragment. -/
def pyUpper (s : String) : String := String.mk (s.toList.map Char.toUpper)

/-- Python `str.lower()`, ASCII fragment. -/
def pyLower (s : String) : String := String.mk (s.toList.map Char.toLower)

/-- Match a literal case-insensitively at the head of the input; return
the rest of the input on success (regex literals under `re.IGNORECASE`). -/
def matchCI : List Char → List Char → Option (List Char)
  | [], s => some s
  | _ :: _, [] => none
  | p :: ps, c :: cs => if p.toUpper == c.toUpper then matchCI ps cs else none

/-- Regex `\s*`: drop the maximal run of whitespace. -/
def skipSpacesStar (l : List Char) : List Char := l.dropWhile isPySpace

/-- Regex `\s+`: at least one whitespace character, then the maximal run. -/
def skipSpacesPlus : List Char → Option (List Char)
  | c :: cs => if isPySpace c then some (skipSpacesStar cs) else none
  | [] => none

/-- Regex `\w*`: drop the maximal run of word characters. -/
def skipWordStar (l : List Char) : List Char := l.dropWhile isWordChar

/-- Regex `\w+`: at least one word character, then the maximal run. -/
def skipWordPlus : List Char → Option (List Char)
  | c :: cs => if isWordChar c then some (skipWordStar cs) else none
  | [] => none

/-- Regex `\b` after a keyword made of word characters: end of input or a
non-word character next. -/
def boundaryAfter : List Char → Bool
  | [] => true
  | c :: _ => !isWordChar c

/-- Match `KW1\s+KW2\s+...` case-insensitively at the head of the input.
Because every keyword starts with a word character, the maximal-munch
readings of `\s+` used here coincide with the regex semantics. -/
def matchWordSeq : List String → List Char → Option (List Char)
  | [], s => some s
  | kw :: kws, s =>
    match matchCI kw.toList s with
    | none => none
    | some r =>
      match kws with
      | [] => some r
      | _ :: _ =>
        match skipSpacesPlus r with
        | none => none
        | some r2 => matchWordSeq kws r2

/-- Try a matcher at every position of the input (the semantics of
`re.search`); `prevWord` records whether the character just before the
current position is a word character, for `\b` tests. -/
def searchFrom (m : Bool → List Char → Bool) : Bool → List Char → Bool
  | prevWord, [] => m prevWord []
  | prevWord, c :: cs => m prevWord (c :: cs) || searchFrom m (isWordChar c) cs

/-- Position-only search: try a matcher at every suffix of the input. -/
def searchSub (m : List Char → Bool) (l : List Char) : Bool :=
  searchFrom (fun _ rest => m rest) false l

/-- Search of `\bKW1\s+KW2...\b` in a string (`re.search` with
`re.IGNORECASE`); the leading `\b` holds when the previous character is
not a word character. -/
def searchWords (kws : List String) (s : String) : Bool :=
  searchFrom
    (fun prevWord rest =>
      !prevWord &&
        (match matchWordSeq kws rest with
         | some r => boundaryAfter r
         | none => false))
    false s.toList

/-- The portion of the input that regex `.` may span: everything before
the first newline. -/
def lineOf (l : List Char) : List Char := l.takeWhile (fun c => c != '\n')

/-- The lookahead body `\s+\w+\s+WHERE` of the `DELETE FROM` rule. -/
def lookaheadTableWhere (r : List Char) : Bool :=
  match skipSpacesPlus r with
  | none => false
  | some r1 =>
    match skipWordPlus r1 with
    | none => false
    | some r2 =>
      match skipSpacesPlus r2 with
      | none => false
      | some r3 => (matchCI "WHERE".toList r3).isSome

/-- Search of `\bDELETE\s+FROM\b(?!\s+\w+\s+WHERE)` (a `DELETE FROM` not
followed by a table name and a `WHERE`). -/
def searchDeleteFromNoWhere (s : String) : Bool :=
  searchFrom
    (fun prevWord rest =>
      !prevWord &&
        (match matchWordSeq ["DELETE", "FROM"] rest with
         | some r => boundaryAfter r && !lookaheadTableWhere r
         | none => false))
    false s.toList

/-- Search of `\bUPDATE\b(?!.*WHERE)` (an `UPDATE` with no `WHERE` later
on the same line; `.` does not cross a newline). -/
def searchUpdateNoWhere (s : String) : Bool :=
  searchFrom
    (fun prevWord rest =>
      !prevWord &&
        (match matchWordSeq ["UPDATE"] rest with
         | some r =>
           boundaryAfter r &&
             !(searchSub (fun t => (matchCI "WHERE".toList t).isSome) (lineOf r))
         | none => false))
    false s.toList

/-- A safety rule of `SafetyValidatorAgent`: the pattern text as written
in the source (interpolated into issue messages) and its search. -/
structure SafetyPattern where
  source : String
  matcher : String → Bool

/-- The `dangerous_operations` rule list of
`SafetyValidatorAgent._setup_safety_rules`. -/
def dangerous_operations : List SafetyPattern :=
  [ ⟨"\\bDROP\\s+TABLE\\b", searchWords ["DROP", "TABLE"]⟩,
    ⟨"\\bDROP\\s+DATABASE\\b", searchWords ["DROP", "DATABASE"]⟩,
    ⟨"\\bTRUNCATE\\b", searchWords ["TRUNCATE"]⟩,
    ⟨"\\bALTER\\s+TABLE\\b", searchWords ["ALTER", "TABLE"]⟩,
    ⟨"\\bCREATE\\s+TABLE\\b", searchWords ["CREATE", "TABLE"]⟩,
    ⟨"\\bDELETE\\s+FROM\\b(?!\\s+\\w+\\s+WHERE)", searchDeleteFromNoWhere⟩,
    ⟨"\\bUPDATE\\b(?!.*WHERE)", searchUpdateNoWhere⟩ ]

/-- The `write_operations` rule list. -/
def write_operations : List SafetyPattern :=
  [ ⟨"\\bINSERT\\b", searchWords ["INSERT"]⟩,
    ⟨"\\bUPDATE\\b", searchWords ["UPDATE"]⟩,
    ⟨"\\bDELETE\\b", searchWords ["DELETE"]⟩,
    ⟨"\\bMERGE\\b", searchWords ["MERGE"]⟩,
    ⟨"\\bREPLACE\\b", searchWords ["REPLACE"]⟩ ]

/-- The `schema_operations` rule list. -/
def schema_operations : List SafetyPattern :=
  [ ⟨"\\bCREATE\\b", searchWords ["CREATE"]⟩,
    ⟨"\\bALTER\\b", searchWords ["ALTER"]⟩,
    ⟨"\\bDROP\\b", searchWords ["DROP"]⟩,
    ⟨"\\bRENAME\\b", searchWords ["RENAME"]⟩ ]

/-- The `dangerous_functions` rule list. -/
def dangerous_functions : List SafetyPattern :=
  [ ⟨"\\bEXEC\\b", searchWords ["EXEC"]⟩,
    ⟨"\\bEVAL\\b", searchWords ["EVAL"]⟩,
    ⟨"\\bxp_cmdshell\\b", searchWords ["xp_cmdshell"]⟩,
    ⟨"\\bsp_executesql\\b", searchWords ["sp_executesql"]⟩ ]

/-- The apostrophe character, used by the comment-injection pattern. -/
def apos : Char := Char.ofNat 39

/-- Search of the comment-injection pattern (apostrophe, semicolon, then
a double dash later on the same line). -/
def searchInjComment (s : String) : Bool :=
  searchSub
    (fun t =>
      match t with
      | c1 :: c2 :: r =>
        c1 == apos && c2 == ';' &&
          searchSub (fun u => (matchCI "--".toList u).isSome) (lineOf r)
      | _ => false)
    s.toList

/-- The `injection_patterns` of `SafetyValidatorAgent._check_sql_injection`.
None of them carries a `\b`, so they are plain (case-insensitive)
substring-shaped searches. -/
def injection_patterns : List SafetyPattern :=
  [ ⟨String.singleton apos ++ ";.*--", searchInjComment⟩,
    ⟨"UNION\\s+SELECT", fun s => searchSub (fun t => (matchWordSeq ["UNION", "SELECT"] t).isSome) s.toList⟩,
    ⟨"1=1", fun s => searchSub (fun t => (matchCI "1=1".toList t).isSome) s.toList⟩,
    ⟨"OR\\s+1=1", fun s => searchSub (fun t => (matchWordSeq ["OR", "1=1"] t).isSome) s.toList⟩,
    ⟨"DROP\\s+TABLE", fun s => searchSub (fun t => (matchWordSeq ["DROP", "TABLE"] t).isSome) s.toList⟩ ]

/-- `SafetyValidatorAgent._check_sql_injection`: collect an issue for
each injection pattern found in the raw query. -/
def check_sql_injection (sql_query : String) : List String :=
  injection_patterns.foldl
    (fun issues p =>
      if p.matcher sql_query then
        issues ++ ["Potential SQL injection pattern: " ++ p.source]
      else issues)
    []

/-- Python substring test `sub in s`. -/
def containsSub (sub : String) (s : String) : Bool :=
  searchSub (fun t => sub.toList.isPrefixOf t) s.toList

/-- `SafetyValidatorAgent._generate_recommendations`. -/
def generate_recommendations (issues : List String) : List String :=
  let recs : List String := []
  let recs := if issues.any (fun i => containsSub "injection" (pyLower i)) then
      recs ++ ["Use parameterized queries to prevent SQL injection"] else recs
  let recs := if issues.any (fun i => containsSub "write operation" (pyLower i)) then
      recs ++ ["Consider using read-only database connections for analytics"] else recs
  let recs := if issues.any (fun i => containsSub "dangerous operation" (pyLower i)) then
      recs ++ ["Review and approve destructive operations manually"] else recs
  let recs := if issues.any (fun i => containsSub "schema modification" (pyLower i)) then
      recs ++ ["Schema changes should go through proper change management"] else recs
  recs

/-- Modelled from the spec: the `SafetyValidationResult` record of the
absent `src/models/query.py` module ({is_safe, issues, risk_level,
recommendations}; risk_level ranges over "low"/"medium"/"high"). -/
structure SafetyValidationResult where
  is_safe : Bool
  issues : List String
  risk_level : String
  recommendations : List String
  deriving Repr, DecidableEq

/-- The two safety flags of `Settings` (src/utils/config.py) consulted by
the safety validator; the remaining configuration fields are not read by
any embedded code path. -/
structure Settings where
  allow_write_operations : Bool
  allow_schema_changes : Bool
  deriving Repr, DecidableEq

/-- One `for pattern in rules` loop of `SafetyValidatorAgent.validate`:
each matching pattern appends its issue message and overwrites the risk
level with `newRisk`. -/
def checkPatterns (tag newRisk : String) (q : String) :
    List SafetyPattern → List String × String → List String × String
  | [], acc => acc
  | p :: ps, acc =>
    checkPatterns tag newRisk q ps
      (if p.matcher q then (acc.1 ++ [tag ++ p.source], newRisk) else acc)

/-- Issue/risk accumulator of `SafetyValidatorAgent.validate` after the
dangerous-operations loop (the initial accumulator is `([], "low")`). -/
def vDangerous (normalized_query : String) : List String × String :=
  checkPatterns "Dangerous operation detected: " "high"
    normalized_query dangerous_operations ([], "low")

/-- Accumulator after the flag-gated write-operations loop. -/
def vWrite (settings : Settings) (normalized_query : String) : List String × String :=
  if !settings.allow_write_operations then
    checkPatterns "Write operation not allowed: " "medium"
      normalized_query write_operations (vDangerous normalized_query)
  else vDangerous normalized_query

/-- Accumulator after the flag-gated schema-operations loop. -/
def vSchema (settings : Settings) (normalized_query : String) : List String × String :=
  if !settings.allow_schema_changes then
    checkPatterns "Schema modification not allowed: " "high"
      normalized_query schema_operations (vWrite settings normalized_query)
  else vWrite settings normalized_query

/-- Accumulator after the dangerous-functions loop. -/
def vFuncs (settings : Settings) (normalized_query : String) : List String × String :=
  checkPatterns "Dangerous function detected: " "high"
    normalized_query dangerous_functions (vSchema settings normalized_query)

/-- Accumulator after folding in the SQL-injection issues (which are
collected from the raw query, not the normalized one). -/
def vFinal (settings : Settings) (sql_query : String) : List String × String :=
  let acc4 := vFuncs settings (pyStrip (pyUpper sql_query))
  let injection_issues := check_sql_injection sql_query
  if injection_issues.isEmpty then acc4 else (acc4.1 ++ injection_issues, "high")

/-- `SafetyValidatorAgent.validate` (the `connection_name` argument is
used only for logging).  The Python body cannot raise, so the trailing
`except` branch of the source is dead and not modelled. -/
def validate (settings : Settings) (sql_query : String) (_connection_name : String) :
    SafetyValidationResult :=
  let acc := vFinal settings sql_query
  let issues := acc.1
  let risk_level := acc.2
  let recommendations := if issues.isEmpty then [] else generate_recommendations issues
  let is_safe := issues.isEmpty || (risk_level == "low" && settings.allow_write_operations)
  ⟨is_safe, issues, risk_level, recommendations⟩

/-! Query generator: response cleanup (src/agents/query_generator.py). -/

/-- The literal prefix list `prefixes_to_remove` of
`QueryGeneratorAgent._clean_sql_response`. -/
def prefixesToRemove : List String :=
  ["Query:", "SQL:", "Answer:", "Result:",
   "Here" ++ String.singleton apos ++ "s the SQL query:",
   "The SQL query is:"]

/-- Python `str.startswith` on character lists. -/
def startsWithList (p s : List Char) : Bool := p.isPrefixOf s

/-- Python `str.endswith` on character lists. -/
def endsWithList (p s : List Char) : Bool := p.reverse.isPrefixOf s.reverse

/-- Python `str.rstrip(";")`: drop every trailing semicolon. -/
def rstripSemi (l : List Char) : List Char :=
  (l.reverse.dropWhile (fun c => c == ';')).reverse

/-- One iteration of the prefix-removal loop of `_clean_sql_response`:
when the lowercased query starts with the lowercased prefix, drop the
prefix and strip. -/
def stripKnownOne (l : List Char) (p : String) : List Char :=
  if (p.toList.map Char.toLower).isPrefixOf (l.map Char.toLower) then
    pyStripList (l.drop p.length)
  else l

/-- `QueryGeneratorAgent._clean_sql_response`: strip, drop a leading
markdown fence, drop a trailing fence, drop known prefixes, then
`rstrip(";")` followed by `strip()` — in that source order. -/
def clean_sql_response (response : String) : String :=
  let sql := pyStripList response.toList
  let sql := if startsWithList "```sql".toList sql then sql.drop 6
             else if startsWithList "```".toList sql then sql.drop 3
             else sql
  let sql := if endsWithList "```".toList sql then sql.take (sql.length - 3) else sql
  let sql := prefixesToRemove.foldl stripKnownOne sql
  String.mk (pyStripList (rstripSemi sql))

/-- `QueryGeneratorAgent.generate`: the LLM call is external, its outcome
is the `llmResult` oracle; on success the content is cleaned, on failure
the exception is re-raised to the caller. -/
def generate (llmResult : Except String String) : Except String String :=
  match llmResult with
  | .ok content => .ok (clean_sql_response content)
  | .error e => .error e

/-- `ResultExplainerAgent.explain`: the LLM call is external; on success
the stripped content is returned, on failure the exception is caught and
converted into a placeholder string. -/
def explain (llmResult : Except String String) : String :=
  match llmResult with
  | .ok content => pyStrip content
  | .error e => "Unable to generate explanation: " ++ e

/-! Query optimizer (src/agents/query_optimizer.py). -/

/-- Count the positions where a matcher fires (`re.findall` for the
keyword patterns below, whose matches cannot overlap). -/
def countFrom (m : Bool → List Char → Bool) : Bool → List Char → Nat
  | prevWord, [] => if m prevWord [] then 1 else 0
  | prevWord, c :: cs => (if m prevWord (c :: cs) then 1 else 0) + countFrom m (isWordChar c) cs

/-- Count of `\bLIT\b` occurrences (re.IGNORECASE), the literal taken
verbatim — `\bGROUP BY\b` has a literal single space. -/
def countWordLit (lit : String) (s : String) : Nat :=
  countFrom
    (fun prevWord rest =>
      !prevWord &&
        (match matchCI lit.toList rest with
         | some r => boundaryAfter r
         | none => false))
    false s.toList

/-- Search of `FROM\s+\w+\s*,\s*\w+` (comma-separated tables). -/
def searchCommaJoin (s : String) : Bool :=
  searchSub
    (fun t =>
      match matchCI "FROM".toList t with
      | none => false
      | some r =>
        match skipSpacesPlus r with
        | none => false
        | some r1 =>
          match skipWordPlus r1 with
          | none => false
          | some r2 =>
            match skipSpacesStar r2 with
            | ',' :: r3 => (skipWordPlus (skipSpacesStar r3)).isSome
            | _ => false)
    s.toList

/-- After an opening parenthesis: `[^)]*\w+\.[^)]*\)` — before any
closing parenthesis, a word character followed by a dot, with a closing
parenthesis somewhere later. -/
def parenDotClose : Bool → List Char → Bool
  | _, [] => false
  | prevWord, c :: cs =>
    if c == ')' then false
    else if c == '.' && prevWord then cs.contains ')'
    else parenDotClose (isWordChar c) cs

/-- Scan the part of a line after a `WHERE` for `\w+\(` and then check the
parenthesis body (`.` does not cross a newline, but `[^)]` does). -/
def scanWhereParen : Bool → List Char → Bool
  | _, [] => false
  | prevWord, c :: cs =>
    if c == '\n' then false
    else if c == '(' && prevWord then parenDotClose false cs || scanWhereParen false cs
    else scanWhereParen (isWordChar c) cs

/-- Search of `WHERE.*\w+\([^)]*\w+\.[^)]*\)` (a function call on a
qualified column inside a WHERE clause). -/
def searchFuncInWhere (s : String) : Bool :=
  searchSub
    (fun t =>
      match matchCI "WHERE".toList t with
      | none => false
      | some r => scanWhereParen false r)
    s.toList

/-- Search of `LIKE\s+['\"]%` (a LIKE pattern with a leading wildcard). -/
def searchLikeWildcard (s : String) : Bool :=
  searchSub
    (fun t =>
      match matchCI "LIKE".toList t with
      | none => false
      | some r =>
        match skipSpacesPlus r with
        | none => false
        | some r1 =>
          match r1 with
          | q :: '%' :: _ => q == apos || q == '"'
          | _ => false)
    s.toList

/-- Search of `SELECT\s+\*`. -/
def searchSelectStar (s : String) : Bool :=
  searchSub
    (fun t =>
      match matchCI "SELECT".toList t with
      | none => false
      | some r =>
        match skipSpacesPlus r with
        | some ('*' :: _) => true
        | _ => false)
    s.toList

/-- Try `kw` at every position up to the end of the current line (the
positions a dot-star can reach), handing the rest to a continuation. -/
def scanSameLineThen (kw : List Char) (k : List Char → Bool) : List Char → Bool
  | [] => false
  | c :: cs =>
    if c == '\n' then false
    else
      (match matchCI kw (c :: cs) with
       | some r => k r
       | none => false) || scanSameLineThen kw k cs

/-- Search of `SELECT.*CASE\s+WHEN`. -/
def searchSelectCaseWhen (s : String) : Bool :=
  searchSub
    (fun t =>
      match matchCI "SELECT".toList t with
      | none => false
      | some r =>
        scanSameLineThen "CASE".toList
          (fun r2 =>
            match skipSpacesPlus r2 with
            | some r3 => (matchCI "WHEN".toList r3).isSome
            | none => false)
          r)
    s.toList

/-- The tail `\s*\(\s*SELECT` shared by the two subquery patterns. -/
def afterInParenSelect (r : List Char) : Bool :=
  match skipSpacesStar r with
  | '(' :: r2 => (matchCI "SELECT".toList (skipSpacesStar r2)).isSome
  | _ => false

/-- Search of `WHERE.*IN\s*\(\s*SELECT`. -/
def searchWhereInSelect (s : String) : Bool :=
  searchSub
    (fun t =>
      match matchCI "WHERE".toList t with
      | none => false
      | some r => scanSameLineThen "IN".toList afterInParenSelect r)
    s.toList

/-- Search of `NOT\s+IN\s*\(\s*SELECT`. -/
def searchNotInSelect (s : String) : Bool :=
  searchSub
    (fun t =>
      match matchWordSeq ["NOT", "IN"] t with
      | some r => afterInParenSelect r
      | none => false)
    s.toList

/-- One alternative of `(COUNT|SUM|AVG)\s*\(\s*DISTINCT`. -/
def matchAggThen (kw : String) (t : List Char) : Bool :=
  match matchCI kw.toList t with
  | some r =>
    match skipSpacesStar r with
    | '(' :: r2 => (matchCI "DISTINCT".toList (skipSpacesStar r2)).isSome
    | _ => false
  | none => false

/-- Search of `(COUNT|SUM|AVG)\s*\(\s*DISTINCT`. -/
def searchAggDistinct (s : String) : Bool :=
  searchSub
    (fun t => matchAggThen "COUNT" t || matchAggThen "SUM" t || matchAggThen "AVG" t)
    s.toList

/-- `QueryOptimizerAgent._analyze_joins`. -/
def analyze_joins (sql_query : String) : List String :=
  let s1 := if countWordLit "JOIN" sql_query > countWordLit "ON" sql_query then
      ["Some JOINs may be missing ON conditions - consider adding explicit join conditions"]
    else []
  let s2 := if searchCommaJoin sql_query then
      ["Consider using explicit JOIN syntax instead of comma-separated tables"]
    else []
  let s3 := if searchWords ["LEFT", "JOIN"] sql_query then
      ["Review LEFT JOINs - consider if INNER JOIN is sufficient"]
    else []
  s1 ++ s2 ++ s3

/-- `QueryOptimizerAgent._analyze_where_clauses`. -/
def analyze_where_clauses (sql_query : String) : List String :=
  let s1 := if searchFuncInWhere sql_query then
      ["Functions in WHERE clauses may prevent index usage - consider alternatives"]
    else []
  let s2 := if searchLikeWildcard sql_query then
      ["LIKE patterns starting with % cannot use indexes effectively"]
    else []
  let s3 := if searchWords ["OR"] sql_query then
      ["OR conditions may prevent index usage - consider UNION or separate queries"]
    else []
  let s4 := if sql_query.toList.countP (fun c => c == '<' || c == '>' || c == '!') > 2 then
      ["Multiple inequality conditions may limit index effectiveness"]
    else []
  s1 ++ s2 ++ s3 ++ s4

/-- `QueryOptimizerAgent._analyze_select_clauses`. -/
def analyze_select_clauses (sql_query : String) : List String :=
  let s1 := if searchSelectStar sql_query then
      ["SELECT * fetches all columns - specify only needed columns for better performance"]
    else []
  let s2 := if searchWords ["DISTINCT"] sql_query then
      ["Review if DISTINCT is necessary - it adds sorting overhead"]
    else []
  let s3 := if searchSelectCaseWhen sql_query then
      ["Complex CASE expressions in SELECT may impact performance"]
    else []
  s1 ++ s2 ++ s3

/-- `QueryOptimizerAgent._analyze_subqueries` (the subquery count is the
`\bSELECT\b` count minus one, as a signed quantity). -/
def analyze_subqueries (sql_query : String) : List String :=
  let s1 := if (countWordLit "SELECT" sql_query : Int) - 1 > 2 then
      ["Multiple subqueries detected - consider JOINs or CTEs for better performance"]
    else []
  let s2 := if searchWhereInSelect sql_query then
      ["EXISTS may perform better than IN with subqueries"]
    else []
  let s3 := if searchNotInSelect sql_query then
      ["NOT EXISTS typically performs better than NOT IN with subqueries"]
    else []
  s1 ++ s2 ++ s3

/-- `QueryOptimizerAgent._analyze_aggregations`. -/
def analyze_aggregations (sql_query : String) : List String :=
  let s1 := if searchWords ["HAVING"] sql_query && !searchWords ["GROUP", "BY"] sql_query then
      ["HAVING without GROUP BY may be inefficient - consider WHERE clause"]
    else []
  let s2 := if searchAggDistinct sql_query then
      ["Aggregations with DISTINCT require additional processing"]
    else []
  s1 ++ s2

/-- `QueryOptimizerAgent._apply_optimizations`: the source performs no
rewrite and returns the input query unchanged. -/
def apply_optimizations (sql_query : String) (_suggestions : List String) : String :=
  sql_query

/-- `QueryOptimizerAgent._calculate_complexity` (`\bGROUP BY\b` and
`\bORDER BY\b` here carry a literal single space). -/
def calculate_complexity (sql_query : String) : Nat :=
  countWordLit "JOIN" sql_query * 2 +
  countWordLit "SELECT" sql_query * 1 +
  countWordLit "WHERE" sql_query * 1 +
  countWordLit "GROUP BY" sql_query * 2 +
  countWordLit "ORDER BY" sql_query * 2 +
  countWordLit "HAVING" sql_query * 2 +
  sql_query.toList.count '*' * 1

/-- `QueryOptimizerAgent._estimate_improvement`.  The branch taken when
the two queries differ formats a floating-point percentage; it is
modelled with truncating rational arithmetic (one decimal digit), and is
unreachable through `optimize` since no rewrite is ever applied. -/
def estimate_improvement (original_query optimized_query : String) : String :=
  if original_query == optimized_query then "No optimizations applied"
  else
    let oc := calculate_complexity original_query
    let nc := calculate_complexity optimized_query
    if nc < oc then
      let tenths := (oc - nc) * 1000 / oc
      "Estimated " ++ toString (tenths / 10) ++ "." ++ toString (tenths % 10) ++
        "% performance improvement"
    else "Performance impact analysis needed"

/-- The placeholder schema-analysis record returned by
`SchemaAnalyzerAgent.analyze` (src/agents/schema_analyzer.py). -/
structure SchemaInfo where
  connection_name : String
  table_relationships : List String
  business_context : List (String × String)
  query_patterns : List String
  optimization_opportunities : List String
  data_quality_insights : List String
  deriving Repr, DecidableEq

/-- `SchemaAnalyzerAgent.analyze`: the source returns a fixed placeholder
record and cannot raise (its LLM prompt is set up but never invoked). -/
def analyze (connection_name : String) : SchemaInfo :=
  ⟨connection_name, [], [], [], [], []⟩

/-- Modelled from the spec: the `QueryOptimizationResult` record of the
absent `src/models/query.py` ({optimized_query, suggestions,
estimated_cost, performance_improvement}). -/
structure QueryOptimizationResult where
  optimized_query : String
  suggestions : List String
  estimated_cost : Option Nat
  performance_improvement : Option String
  deriving Repr, DecidableEq

/-- `QueryOptimizerAgent.optimize`: collect the heuristic suggestions,
apply the (identity) rewriting pass, and report the estimated
improvement.  Every step is total, so the except branch of the source is
dead. -/
def optimize (sql_query : String) (_schema_info : Option SchemaInfo) : QueryOptimizationResult :=
  let suggestions :=
    analyze_joins sql_query ++ analyze_where_clauses sql_query ++
    analyze_select_clauses sql_query ++ analyze_subqueries sql_query ++
    analyze_aggregations sql_query
  let optimized_query := apply_optimizations sql_query suggestions
  let performance_improvement := estimate_improvement sql_query optimized_query
  ⟨optimized_query, suggestions, none, some performance_improvement⟩

/-! Workflow (src/agents/workflow.py). -/

/-- A result row as a mapping object (column name to displayed value). -/
abbrev Row := List (String × String)

/-- A value stored in the workflow metadata map. -/
inductive MetaValue where
  | suggestions (ss : List String)
  | executionTime (t : Nat)
  deriving Repr, DecidableEq

/-- Python dict assignment `d[k] = v` on an association list. -/
def dictSet {α : Type} (m : List (String × α)) (k : String) (v : α) : List (String × α) :=
  if m.any (fun kv => kv.1 == k) then m.map (fun kv => if kv.1 == k then (k, v) else kv)
  else m ++ [(k, v)]

/-- Python dict lookup `d.get(k)` on an association list. -/
def dictGet {α : Type} (m : List (String × α)) (k : String) : Option α :=
  (m.find? (fun kv => kv.1 == k)).map (fun kv => kv.2)

/-- Modelled from the spec: the `QueryRequest` record of the absent
`src/models/query.py` ({query, connection_name, context}). -/
structure QueryRequest where
  query : String
  connection_name : String
  context : List (String × String)
  deriving Repr, DecidableEq

/-- Modelled from the spec: the `QueryResponse` record of the absent
`src/models/query.py` ({success, sql_query, explanation, results,
metadata, error}). -/
structure QueryResponse where
  success : Bool
  sql_query : String
  explanation : String
  results : List Row
  metadata : List (String × MetaValue)
  error : Option String
  deriving Repr, DecidableEq

/-- `DatabaseQueryState`: the mutable scratch record threaded through the
pipeline stages. -/
structure DatabaseQueryState where
  request : QueryRequest
  schema_info : Option SchemaInfo
  generated_sql : String
  safety_validated : Bool
  optimized_sql : String
  query_results : List Row
  explanation : String
  errors : List String
  metadata : List (String × MetaValue)
  deriving Repr, DecidableEq

/-- The initial `DatabaseQueryState` built by `process_query`. -/
def initState (request : QueryRequest) : DatabaseQueryState :=
  ⟨request, none, "", false, "", [], "", [], []⟩

/-- Outcomes of the two external LLM calls of one workflow run (the LLM
adapter is outside the specified core): the raw content returned by the
generation call and by the explanation call, or the exception raised. -/
structure LlmOracle where
  generateResult : Except String String
  explainResult : Except String String

/-- `DatabaseQueryWorkflow._analyze_schema_node`: `SchemaAnalyzerAgent.analyze`
is total, so the except branch of the node is dead. -/
def analyze_schema_node (st : DatabaseQueryState) : DatabaseQueryState :=
  { st with schema_info := some (analyze st.request.connection_name) }

/-- `DatabaseQueryWorkflow._generate_query_node`: on an LLM failure the
re-raised exception is caught here and appended to the error list. -/
def generate_query_node (o : LlmOracle) (st : DatabaseQueryState) : DatabaseQueryState :=
  match generate o.generateResult with
  | .ok sql => { st with generated_sql := sql }
  | .error e => { st with errors := st.errors ++ ["Query generation error: " ++ e] }

/-- `DatabaseQueryWorkflow._validate_safety_node`: record the verdict and,
when unsafe, extend the error list with the issues. -/
def validate_safety_node (settings : Settings) (st : DatabaseQueryState) : DatabaseQueryState :=
  let validation_result := validate settings st.generated_sql st.request.connection_name
  let st1 := { st with safety_validated := validation_result.is_safe }
  if validation_result.is_safe then st1
  else { st1 with errors := st1.errors ++ validation_result.issues }

/-- `DatabaseQueryWorkflow._optimize_query_node`. -/
def optimize_query_node (st : DatabaseQueryState) : DatabaseQueryState :=
  let optimization_result := optimize st.generated_sql st.schema_info
  { st with optimized_sql := optimization_result.optimized_query,
            metadata := dictSet st.metadata "optimization_suggestions"
              (MetaValue.suggestions optimization_result.suggestions) }

/-- `DatabaseQueryWorkflow._execute_query_node`: the source stores a
placeholder — it sets `query_results` to the empty list and an
`execution_time` of zero, and never calls `DatabaseManager.execute_query`. -/
def execute_query_node (st : DatabaseQueryState) : DatabaseQueryState :=
  { st with query_results := [],
            metadata := dictSet st.metadata "execution_time" (MetaValue.executionTime 0) }

/-- `DatabaseQueryWorkflow._explain_results_node`: `explain` catches its
own exceptions, so the except branch of the node is dead. -/
def explain_results_node (o : LlmOracle) (st : DatabaseQueryState) : DatabaseQueryState :=
  { st with explanation := explain o.explainResult }

/-- `DatabaseQueryWorkflow._should_proceed_after_validation`. -/
def should_proceed_after_validation (st : DatabaseQueryState) : String :=
  if st.safety_validated then "optimize" else "reject"

/-- One run of the compiled LangGraph graph: the linear pipeline with the
single conditional edge out of `validate_safety` ("optimize" continues,
"reject" goes directly to the end node). -/
def run_workflow (o : LlmOracle) (settings : Settings) (request : QueryRequest) :
    DatabaseQueryState :=
  let s1 := analyze_schema_node (initState request)
  let s2 := generate_query_node o s1
  let s3 := validate_safety_node settings s2
  if should_proceed_after_validation s3 == "optimize" then
    explain_results_node o (execute_query_node (optimize_query_node s3))
  else s3

/-- `DatabaseQueryWorkflow.process_query`: run the graph and aggregate the
final state into a `QueryResponse` (the nodes catch their exceptions, so
the outer except branch is dead). -/
def process_query (o : LlmOracle) (settings : Settings) (request : QueryRequest) :
    QueryResponse :=
  let result_state := run_workflow o settings request
  { success := result_state.errors.isEmpty,
    sql_query := if result_state.optimized_sql == "" then result_state.generated_sql
                 else result_state.optimized_sql,
    explanation := result_state.explanation,
    results := result_state.query_results,
    metadata := result_state.metadata,
    error := if result_state.errors.isEmpty then none
             else some (String.intercalate "; " result_state.errors) }

/-! Database manager (src/database/manager.py) and the agent facade
(src/main.py). -/

/-- Modelled from the spec: the `DatabaseConnection` record of the absent
`src/models/query.py` ({name, connection_string, database_type,
is_active, created_at, last_used}); timestamps are opaque naturals. -/
structure DatabaseConnection where
  name : String
  connection_string : String
  database_type : String
  is_active : Bool
  created_at : Nat
  last_used : Option Nat
  deriving Repr, DecidableEq

/-- `DatabaseManager` state: the connection metadata table plus the name
sets of the live driver handles (the handle objects themselves are
external driver resources). -/
structure DatabaseManager where
  connections : List (String × DatabaseConnection)
  engines : List String
  mongo_clients : List String
  deriving Repr, DecidableEq

/-- Insertion into a name set (dict-key semantics: re-adding replaces). -/
def nameSet (l : List String) (n : String) : List String :=
  if l.contains n then l else l ++ [n]

/-- `DatabaseManager._get_database_type`: classify a connection string by
its URI scheme. -/
def get_database_type (connection_string : String) : String :=
  if connection_string.startsWith "postgresql://" then "postgresql"
  else if connection_string.startsWith "mysql://" then "mysql"
  else if connection_string.startsWith "sqlite://" then "sqlite"
  else if connection_string.startsWith "mongodb://" then "mongodb"
  else "unknown"

/-- `DatabaseManager.add_connection`: opening the driver handle and the
one-shot liveness probe are external; their combined outcome is the
`driver` oracle.  On any exception the method returns `False` having
mutated nothing, because every assignment in the source comes after the
probe. -/
def add_connection (m : DatabaseManager) (name connection_string : String)
    (driver : Except String Unit) : DatabaseManager × Bool :=
  let db_type := get_database_type connection_string
  match driver with
  | .error _ => (m, false)
  | .ok _ =>
    let m1 := if db_type == "mongodb" then { m with mongo_clients := nameSet m.mongo_clients name }
              else { m with engines := nameSet m.engines name }
    let conn : DatabaseConnection := ⟨name, connection_string, db_type, true, 0, none⟩
    ({ m1 with connections := dictSet m1.connections name conn }, true)

/-- `DatabaseManager.list_connections`: the per-connection summary record
(database_type, is_active, created_at, last_used). -/
def list_connections (m : DatabaseManager) :
    List (String × (String × Bool × Nat × Option Nat)) :=
  m.connections.map (fun nc => (nc.1, (nc.2.database_type, nc.2.is_active, nc.2.created_at, nc.2.last_used)))

/-- `DatabaseManager.execute_query`: raises if the connection is unknown
or is a document store; otherwise runs the SQL through the driver (an
oracle here) and returns the produced rows as mapping objects. -/
def manager_execute_query (m : DatabaseManager) (connection_name _query : String)
    (driver : Except String (List Row)) : Except String (List Row) :=
  match dictGet m.connections connection_name with
  | none => .error ("Connection " ++ connection_name ++ " not found")
  | some conn =>
    if conn.database_type == "mongodb" then
      .error "MongoDB query execution not yet implemented"
    else driver

/-- `DatabaseQueryAgent.connect_database` (src/main.py): delegates to
`add_connection`; its own except branch returns `False` but cannot fire,
since `add_connection` returns normally. -/
def connect_database (m : DatabaseManager) (connection_string connection_name : String)
    (driver : Except String Unit) : DatabaseManager × Bool :=
  add_connection m connection_name connection_string driver

/-! Lemmas about the validator's pattern-check loops. -/

/-- The risk level after one pattern loop: overwritten with `newRisk`
when some pattern matches, kept otherwise. -/
lemma checkPatterns_snd (tag newRisk q : String) (ps : List SafetyPattern)
    (acc : List String × String) :
    (checkPatterns tag newRisk q ps acc).2 =
      if ps.any (fun p => p.matcher q) then newRisk else acc.2 := by
  induction ps generalizing acc with
  | nil => simp [checkPatterns]
  | cons p ps ih =>
    by_cases h : p.matcher q
    · simp [checkPatterns, h, ih]
    · simp [checkPatterns, h, ih]

/-- The issue list after one pattern loop: the messages of the matching
patterns, in order, appended to the accumulator. -/
lemma checkPatterns_fst (tag newRisk q : String) (ps : List SafetyPattern)
    (acc : List String × String) :
    (checkPatterns tag newRisk q ps acc).1 =
      acc.1 ++ (ps.filter (fun p => p.matcher q)).map (fun p => tag ++ p.source) := by
  induction ps generalizing acc with
  | nil => simp [checkPatterns]
  | cons p ps ih =>
    by_cases h : p.matcher q
    · simp [checkPatterns, h, ih]
    · simp [checkPatterns, h, ih]

/-- A pattern loop never erases issues. -/
lemma checkPatterns_fst_ne_nil (tag newRisk q : String) (ps : List SafetyPattern)
    (acc : List String × String) (h : acc.1 ≠ []) :
    (checkPatterns tag newRisk q ps acc).1 ≠ [] := by
  rw [checkPatterns_fst]
  intro hc
  exact h (List.append_eq_nil.mp hc).1

/-- A pattern loop with a matching pattern leaves a non-empty issue list. -/
lemma checkPatterns_fst_ne_nil_of_any (tag newRisk q : String) (ps : List SafetyPattern)
    (acc : List String × String) (h : ps.any (fun p => p.matcher q) = true) :
    (checkPatterns tag newRisk q ps acc).1 ≠ [] := by
  rw [checkPatterns_fst]
  intro hc
  obtain ⟨-, hmap⟩ := List.append_eq_nil.mp hc
  rw [List.map_eq_nil_iff, List.filter_eq_nil_iff] at hmap
  obtain ⟨p, hp, hpq⟩ := List.any_eq_true.mp h
  exact hmap p hp hpq

/-- A pattern loop preserves the invariant that a non-empty issue list
comes with a risk level other than "low", provided its own risk value is
not "low". -/
lemma checkPatterns_inv (tag newRisk q : String) (ps : List SafetyPattern)
    (acc : List String × String) (hr : newRisk ≠ "low")
    (hacc : acc.1 ≠ [] → acc.2 ≠ "low") :
    (checkPatterns tag newRisk q ps acc).1 ≠ [] →
    (checkPatterns tag newRisk q ps acc).2 ≠ "low" := by
  intro hne
  rw [checkPatterns_snd]
  by_cases h : ps.any (fun p => p.matcher q) = true
  · rw [if_pos h]; exact hr
  · rw [if_neg h]
    apply hacc
    rw [checkPatterns_fst] at hne
    intro hnil
    apply hne
    rw [hnil, List.nil_append, List.map_eq_nil_iff, List.filter_eq_nil_iff]
    intro p hp hpq
    exact h (List.any_eq_true.mpr ⟨p, hp, hpq⟩)

/-- A pattern loop either overwrites the risk or keeps it. -/
lemma checkPatterns_snd_cases (tag newRisk q : String) (ps : List SafetyPattern)
    (acc : List String × String) :
    (checkPatterns tag newRisk q ps acc).2 = newRisk ∨
    (checkPatterns tag newRisk q ps acc).2 = acc.2 := by
  rw [checkPatterns_snd]
  by_cases h : ps.any (fun p => p.matcher q) = true
  · exact Or.inl (if_pos h)
  · exact Or.inr (if_neg h)

/-! Lemmas about the assembled validator. -/

/-- The issue list of the verdict is the final accumulator's issue list. -/
lemma validate_issues (settings : Settings) (sql cn : String) :
    (validate settings sql cn).issues = (vFinal settings sql).1 := rfl

/-- The risk level of the verdict is the final accumulator's risk level. -/
lemma validate_risk (settings : Settings) (sql cn : String) :
    (validate settings sql cn).risk_level = (vFinal settings sql).2 := rfl

/-- The defining equation of the safety flag. -/
lemma validate_is_safe_eq (settings : Settings) (sql cn : String) :
    (validate settings sql cn).is_safe =
      ((vFinal settings sql).1.isEmpty ||
       ((vFinal settings sql).2 == "low" && settings.allow_write_operations)) := rfl

lemma vDangerous_inv (q : String) :
    (vDangerous q).1 ≠ [] → (vDangerous q).2 ≠ "low" :=
  checkPatterns_inv _ _ _ _ _ (by decide) (fun h => absurd rfl h)

lemma vWrite_inv (settings : Settings) (q : String) :
    (vWrite settings q).1 ≠ [] → (vWrite settings q).2 ≠ "low" := by
  unfold vWrite
  by_cases h : settings.allow_write_operations
  · simp only [h, Bool.not_true, Bool.false_eq_true, if_false]
    exact vDangerous_inv q
  · simp only [Bool.not_eq_true] at h
    simp only [h, Bool.not_false, if_true]
    exact checkPatterns_inv _ _ _ _ _ (by decide) (vDangerous_inv q)

lemma vSchema_inv (settings : Settings) (q : String) :
    (vSchema settings q).1 ≠ [] → (vSchema settings q).2 ≠ "low" := by
  unfold vSchema
  by_cases h : settings.allow_schema_changes
  · simp only [h, Bool.not_true, Bool.false_eq_true, if_false]
    exact vWrite_inv settings q
  · simp only [Bool.not_eq_true] at h
    simp only [h, Bool.not_false, if_true]
    exact checkPatterns_inv _ _ _ _ _ (by decide) (vWrite_inv settings q)

lemma vFuncs_inv (settings : Settings) (q : String) :
    (vFuncs settings q).1 ≠ [] → (vFuncs settings q).2 ≠ "low" :=
  checkPatterns_inv _ _ _ _ _ (by decide) (vSchema_inv settings q)

/-- Any issue forces the risk level away from "low": every rule that
appends an issue also overwrites the risk with "medium" or "high". -/
lemma vFinal_inv (settings : Settings) (sql : String) :
    (vFinal settings sql).1 ≠ [] → (vFinal settings sql).2 ≠ "low" := by
  unfold vFinal
  by_cases h : (check_sql_injection sql).isEmpty
  · simp only [h, if_true]
    exact vFuncs_inv settings (pyStrip (pyUpper sql))
  · simp only [h, Bool.false_eq_true, if_false]
    intro _
    decide

/-- A verdict with a non-empty issue list is never judged safe. -/
lemma validate_unsafe_of_issues (settings : Settings) (sql cn : String)
    (h : (validate settings sql cn).issues ≠ []) :
    (validate settings sql cn).is_safe = false := by
  rw [validate_issues] at h
  rw [validate_is_safe_eq]
  have h1 : (vFinal settings sql).1.isEmpty = false := by
    cases he : (vFinal settings sql).1 with
    | nil => exact absurd he h
    | cons a l => rfl
  have h2 : ((vFinal settings sql).2 == "low") = false := by
    have := vFinal_inv settings sql h
    cases hb : (vFinal settings sql).2 == "low" with
    | false => rfl
    | true => exact absurd (eq_of_beq hb) this
  rw [h1, h2, Bool.false_and, Bool.or_false]

/-- An unsafe verdict carries at least one issue. -/
lemma validate_issues_ne_of_not_safe (settings : Settings) (sql cn : String)
    (h : (validate settings sql cn).is_safe = false) :
    (validate settings sql cn).issues ≠ [] := by
  intro hnil
  rw [validate_issues] at hnil
  rw [validate_is_safe_eq, hnil] at h
  simp at h

/-! Issue-monotonicity and risk-flow lemmas along the validator stages. -/

lemma vWrite_fst_ne (settings : Settings) (q : String) (h : (vDangerous q).1 ≠ []) :
    (vWrite settings q).1 ≠ [] := by
  cases hw : settings.allow_write_operations with
  | true => simpa [vWrite, hw] using h
  | false =>
    simp only [vWrite, hw, Bool.not_false, if_true]
    exact checkPatterns_fst_ne_nil _ _ _ _ _ h

lemma vSchema_fst_ne (settings : Settings) (q : String) (h : (vWrite settings q).1 ≠ []) :
    (vSchema settings q).1 ≠ [] := by
  cases hs : settings.allow_schema_changes with
  | true => simpa [vSchema, hs] using h
  | false =>
    simp only [vSchema, hs, Bool.not_false, if_true]
    exact checkPatterns_fst_ne_nil _ _ _ _ _ h

lemma vFuncs_fst_ne (settings : Settings) (q : String) (h : (vSchema settings q).1 ≠ []) :
    (vFuncs settings q).1 ≠ [] :=
  checkPatterns_fst_ne_nil _ _ _ _ _ h

lemma vFinal_fst_ne (settings : Settings) (sql : String)
    (h : (vFuncs settings (pyStrip (pyUpper sql))).1 ≠ []) :
    (vFinal settings sql).1 ≠ [] := by
  unfold vFinal
  by_cases hi : (check_sql_injection sql).isEmpty
  · simpa [hi] using h
  · simp only [hi, Bool.false_eq_true, if_false]
    intro hc
    exact h (List.append_eq_nil.mp hc).1

lemma vSchema_snd_cases (settings : Settings) (q : String) :
    (vSchema settings q).2 = "high" ∨ (vSchema settings q).2 = (vWrite settings q).2 := by
  cases hs : settings.allow_schema_changes with
  | true => simp [vSchema, hs]
  | false =>
    simp only [vSchema, hs, Bool.not_false, if_true]
    exact checkPatterns_snd_cases _ _ _ _ _

lemma vFuncs_snd_cases (settings : Settings) (q : String) :
    (vFuncs settings q).2 = "high" ∨ (vFuncs settings q).2 = (vSchema settings q).2 :=
  checkPatterns_snd_cases _ _ _ _ _

lemma vFinal_snd_cases (settings : Settings) (sql : String) :
    (vFinal settings sql).2 = "high" ∨
    (vFinal settings sql).2 = (vFuncs settings (pyStrip (pyUpper sql))).2 := by
  unfold vFinal
  by_cases hi : (check_sql_injection sql).isEmpty
  · simp [hi]
  · simp [hi]

/-! Field-preservation lemmas for the workflow nodes. -/

lemma analyze_schema_node_request (st : DatabaseQueryState) :
    (analyze_schema_node st).request = st.request := rfl

lemma generate_query_node_request (o : LlmOracle) (st : DatabaseQueryState) :
    (generate_query_node o st).request = st.request := by
  unfold generate_query_node
  cases generate o.generateResult <;> rfl

lemma generate_query_node_results (o : LlmOracle) (st : DatabaseQueryState) :
    (generate_query_node o st).query_results = st.query_results := by
  unfold generate_query_node
  cases generate o.generateResult <;> rfl

lemma generate_query_node_metadata (o : LlmOracle) (st : DatabaseQueryState) :
    (generate_query_node o st).metadata = st.metadata := by
  unfold generate_query_node
  cases generate o.generateResult <;> rfl

lemma validate_safety_node_validated (settings : Settings) (st : DatabaseQueryState) :
    (validate_safety_node settings st).safety_validated =
      (validate settings st.generated_sql st.request.connection_name).is_safe := by
  simp only [validate_safety_node]
  split <;> rfl

lemma validate_safety_node_results (settings : Settings) (st : DatabaseQueryState) :
    (validate_safety_node settings st).query_results = st.query_results := by
  simp only [validate_safety_node]
  split <;> rfl

lemma validate_safety_node_metadata (settings : Settings) (st : DatabaseQueryState) :
    (validate_safety_node settings st).metadata = st.metadata := by
  simp only [validate_safety_node]
  split <;> rfl

lemma validate_safety_node_errors_when_rejected (settings : Settings) (st : DatabaseQueryState)
    (h : (validate settings st.generated_sql st.request.connection_name).is_safe = false) :
    (validate_safety_node settings st).errors =
      st.errors ++ (validate settings st.generated_sql st.request.connection_name).issues := by
  simp only [validate_safety_node, h]
  rfl

/-! Claim theorems. -/

/-- C1 (counterexample): on `TRUNCATE t; DELETE FROM x` with write
operations disallowed, a destructive pattern matches and yet the verdict
risk level is "medium", not "high" — the later write-operations check
overwrites the risk set by the destructive match. -/
theorem c1_risk_downgrade_counterexample :
    dangerous_operations.any
      (fun p => p.matcher (pyStrip (pyUpper "TRUNCATE t; DELETE FROM x"))) = true ∧
    (validate ⟨false, true⟩ "TRUNCATE t; DELETE FROM x" "default").is_safe = false ∧
    (validate ⟨false, true⟩ "TRUNCATE t; DELETE FROM x" "default").risk_level = "medium" := by
  refine ⟨by decide, by decide, by decide⟩

/-- C1 (amended): for every SQL matching a destructive pattern the
verdict has `is_safe = false`; its risk level is "high" unless writes are
disallowed and a write pattern also matches without a later high-risk
overwrite, in which case it is "medium" (the write check assigns rather
than escalates). -/
theorem c1_dangerous_sql_unsafe_amended (settings : Settings) (sql cn : String)
    (hd : dangerous_operations.any
        (fun p => p.matcher (pyStrip (pyUpper sql))) = true) :
    (validate settings sql cn).is_safe = false ∧
    ((validate settings sql cn).risk_level = "high" ∨
     ((validate settings sql cn).risk_level = "medium" ∧
      settings.allow_write_operations = false ∧
      write_operations.any (fun p => p.matcher (pyStrip (pyUpper sql))) = true)) := by
  have hfst1 : (vDangerous (pyStrip (pyUpper sql))).1 ≠ [] :=
    checkPatterns_fst_ne_nil_of_any _ _ _ _ _ hd
  have hsnd1 : (vDangerous (pyStrip (pyUpper sql))).2 = "high" := by
    unfold vDangerous
    rw [checkPatterns_snd, if_pos hd]
  have hP2 : (vWrite settings (pyStrip (pyUpper sql))).2 = "high" ∨
      ((vWrite settings (pyStrip (pyUpper sql))).2 = "medium" ∧
       settings.allow_write_operations = false ∧
       write_operations.any (fun p => p.matcher (pyStrip (pyUpper sql))) = true) := by
    cases hw : settings.allow_write_operations with
    | true => exact Or.inl (by simpa [vWrite, hw] using hsnd1)
    | false =>
      simp only [vWrite, hw, Bool.not_false, if_true]
      by_cases ha : write_operations.any (fun p => p.matcher (pyStrip (pyUpper sql))) = true
      · exact Or.inr ⟨by rw [checkPatterns_snd, if_pos ha], by trivial, ha⟩
      · refine Or.inl ?_
        rw [checkPatterns_snd, if_neg ha]
        exact hsnd1
  have hP3 : (vSchema settings (pyStrip (pyUpper sql))).2 = "high" ∨
      ((vSchema settings (pyStrip (pyUpper sql))).2 = "medium" ∧
       settings.allow_write_operations = false ∧
       write_operations.any (fun p => p.matcher (pyStrip (pyUpper sql))) = true) := by
    rcases vSchema_snd_cases settings (pyStrip (pyUpper sql)) with h | h
    · exact Or.inl h
    · rw [h]; exact hP2
  have hP4 : (vFuncs settings (pyStrip (pyUpper sql))).2 = "high" ∨
      ((vFuncs settings (pyStrip (pyUpper sql))).2 = "medium" ∧
       settings.allow_write_operations = false ∧
       write_operations.any (fun p => p.matcher (pyStrip (pyUpper sql))) = true) := by
    rcases vFuncs_snd_cases settings (pyStrip (pyUpper sql)) with h | h
    · exact Or.inl h
    · rw [h]; exact hP3
  have hP5 : (vFinal settings sql).2 = "high" ∨
      ((vFinal settings sql).2 = "medium" ∧
       settings.allow_write_operations = false ∧
       write_operations.any (fun p => p.matcher (pyStrip (pyUpper sql))) = true) := by
    rcases vFinal_snd_cases settings sql with h | h
    · exact Or.inl h
    · rw [h]; exact hP4
  have hissues : (validate settings sql cn).issues ≠ [] := by
    rw [validate_issues]
    exact vFinal_fst_ne _ _ (vFuncs_fst_ne _ _ (vSchema_fst_ne _ _ (vWrite_fst_ne _ _ hfst1)))
  refine ⟨validate_unsafe_of_issues settings sql cn hissues, ?_⟩
  rw [validate_risk]
  exact hP5

/-- Witness for the amended C1: `DROP TABLE users` with both flags set is
judged unsafe with a "high" risk level. -/
theorem c1_dangerous_sql_unsafe_amended_witness :
    dangerous_operations.any
      (fun p => p.matcher (pyStrip (pyUpper "DROP TABLE users"))) = true ∧
    ((validate ⟨true, true⟩ "DROP TABLE users" "default").is_safe = false ∧
     ((validate ⟨true, true⟩ "DROP TABLE users" "default").risk_level = "high" ∨
      ((validate ⟨true, true⟩ "DROP TABLE users" "default").risk_level = "medium" ∧
       (⟨true, true⟩ : Settings).allow_write_operations = false ∧
       write_operations.any
         (fun p => p.matcher (pyStrip (pyUpper "DROP TABLE users"))) = true))) :=
  ⟨by decide,
   c1_dangerous_sql_unsafe_amended ⟨true, true⟩ "DROP TABLE users" "default" (by decide)⟩

/-- C10: the verdict is safe exactly when its issue list is empty; every
rule that appends an issue also raises the risk above "low", so the
escape clause of the safety flag never fires. -/
theorem c10_is_safe_iff_no_issues (settings : Settings) (sql cn : String) :
    (validate settings sql cn).is_safe = true ↔ (validate settings sql cn).issues = [] := by
  constructor
  · intro h
    by_contra hne
    rw [validate_unsafe_of_issues settings sql cn hne] at h
    exact Bool.false_ne_true h
  · intro h
    rw [validate_is_safe_eq]
    rw [validate_issues] at h
    rw [h]
    rfl

/-- C5: when writes are disallowed, any SQL matching the INSERT, UPDATE
or DELETE write pattern yields at least one issue and a risk level of at
least "medium", never "low". -/
theorem c5_disallowed_write_flagged (settings : Settings) (sql cn : String)
    (hw : settings.allow_write_operations = false)
    (hm : searchWords ["INSERT"] (pyStrip (pyUpper sql)) = true ∨
          searchWords ["UPDATE"] (pyStrip (pyUpper sql)) = true ∨
          searchWords ["DELETE"] (pyStrip (pyUpper sql)) = true) :
    (validate settings sql cn).issues ≠ [] ∧
    ((validate settings sql cn).risk_level = "medium" ∨
     (validate settings sql cn).risk_level = "high") := by
  have ha : write_operations.any (fun p => p.matcher (pyStrip (pyUpper sql))) = true := by
    rcases hm with h | h | h
    · exact List.any_eq_true.mpr ⟨⟨"\\bINSERT\\b", searchWords ["INSERT"]⟩, by simp [write_operations], h⟩
    · exact List.any_eq_true.mpr ⟨⟨"\\bUPDATE\\b", searchWords ["UPDATE"]⟩, by simp [write_operations], h⟩
    · exact List.any_eq_true.mpr ⟨⟨"\\bDELETE\\b", searchWords ["DELETE"]⟩, by simp [write_operations], h⟩
  have hfstw : (vWrite settings (pyStrip (pyUpper sql))).1 ≠ [] := by
    simp only [vWrite, hw, Bool.not_false, if_true]
    exact checkPatterns_fst_ne_nil_of_any _ _ _ _ _ ha
  have hsndw : (vWrite settings (pyStrip (pyUpper sql))).2 = "medium" := by
    simp only [vWrite, hw, Bool.not_false, if_true]
    rw [checkPatterns_snd, if_pos ha]
  have hQ3 : (vSchema settings (pyStrip (pyUpper sql))).2 = "medium" ∨
      (vSchema settings (pyStrip (pyUpper sql))).2 = "high" := by
    rcases vSchema_snd_cases settings (pyStrip (pyUpper sql)) with h | h
    · exact Or.inr h
    · rw [h]; exact Or.inl hsndw
  have hQ4 : (vFuncs settings (pyStrip (pyUpper sql))).2 = "medium" ∨
      (vFuncs settings (pyStrip (pyUpper sql))).2 = "high" := by
    rcases vFuncs_snd_cases settings (pyStrip (pyUpper sql)) with h | h
    · exact Or.inr h
    · rw [h]; exact hQ3
  have hQ5 : (vFinal settings sql).2 = "medium" ∨ (vFinal settings sql).2 = "high" := by
    rcases vFinal_snd_cases settings sql with h | h
    · exact Or.inr h
    · rw [h]; exact hQ4
  constructor
  · rw [validate_issues]
    exact vFinal_fst_ne _ _ (vFuncs_fst_ne _ _ (vSchema_fst_ne _ _ hfstw))
  · rw [validate_risk]
    exact hQ5

/-- Witness for C5: `INSERT INTO t VALUES (1)` with writes disallowed. -/
theorem c5_disallowed_write_flagged_witness :
    (⟨false, true⟩ : Settings).allow_write_operations = false ∧
    searchWords ["INSERT"] (pyStrip (pyUpper "INSERT INTO t VALUES (1)")) = true ∧
    ((validate ⟨false, true⟩ "INSERT INTO t VALUES (1)" "default").issues ≠ [] ∧
     ((validate ⟨false, true⟩ "INSERT INTO t VALUES (1)" "default").risk_level = "medium" ∨
      (validate ⟨false, true⟩ "INSERT INTO t VALUES (1)" "default").risk_level = "high")) :=
  ⟨rfl, by decide,
   c5_disallowed_write_flagged ⟨false, true⟩ "INSERT INTO t VALUES (1)" "default" rfl
     (Or.inl (by decide))⟩

/-- C2: when the safety verdict on the generated SQL is unsafe, the
workflow takes the reject branch straight to the end: the final state is
the post-validation state (optimize, execute and explain never ran), no
execution-time metadata exists, and the response has `success = false`
and empty results. -/
theorem c2_unsafe_query_rejected (o : LlmOracle) (settings : Settings) (request : QueryRequest)
    (h : (validate settings
        (generate_query_node o (analyze_schema_node (initState request))).generated_sql
        request.connection_name).is_safe = false) :
    run_workflow o settings request =
      validate_safety_node settings
        (generate_query_node o (analyze_schema_node (initState request))) ∧
    dictGet (run_workflow o settings request).metadata "execution_time" = none ∧
    (process_query o settings request).success = false ∧
    (process_query o settings request).results = [] := by
  set s2 := generate_query_node o (analyze_schema_node (initState request)) with hs2
  have hreq : s2.request = request := by
    rw [hs2, generate_query_node_request, analyze_schema_node_request]
    rfl
  have hv : (validate settings s2.generated_sql s2.request.connection_name).is_safe = false := by
    rw [hreq]; exact h
  have hval : (validate_safety_node settings s2).safety_validated = false := by
    rw [validate_safety_node_validated]; exact hv
  have hrw : run_workflow o settings request = validate_safety_node settings s2 := by
    simp only [run_workflow]
    rw [← hs2]
    simp [should_proceed_after_validation, hval]
  have herr : (validate_safety_node settings s2).errors ≠ [] := by
    rw [validate_safety_node_errors_when_rejected settings s2 hv]
    intro hc
    exact validate_issues_ne_of_not_safe settings s2.generated_sql s2.request.connection_name hv
      (List.append_eq_nil.mp hc).2
  refine ⟨hrw, ?_, ?_, ?_⟩
  · have hmeta : s2.metadata = [] := by rw [hs2, generate_query_node_metadata]; rfl
    rw [hrw, validate_safety_node_metadata, hmeta]
    rfl
  · show (run_workflow o settings request).errors.isEmpty = false
    rw [hrw]
    cases hc : (validate_safety_node settings s2).errors with
    | nil => exact absurd hc herr
    | cons a l => rfl
  · show (run_workflow o settings request).query_results = []
    rw [hrw, validate_safety_node_results, hs2, generate_query_node_results]
    rfl

/-- Witness for C2: an LLM run producing `DROP TABLE users` is rejected
with a failed, result-free response. -/
theorem c2_unsafe_query_rejected_witness :
    (validate ⟨true, true⟩
        (generate_query_node ⟨Except.ok "DROP TABLE users", Except.ok "No results."⟩
          (analyze_schema_node (initState ⟨"drop the users table", "default", []⟩))).generated_sql
        (⟨"drop the users table", "default", []⟩ : QueryRequest).connection_name).is_safe = false ∧
    ((process_query ⟨Except.ok "DROP TABLE users", Except.ok "No results."⟩ ⟨true, true⟩
        ⟨"drop the users table", "default", []⟩).success = false ∧
     (process_query ⟨Except.ok "DROP TABLE users", Except.ok "No results."⟩ ⟨true, true⟩
        ⟨"drop the users table", "default", []⟩).results = []) := by
  have h := c2_unsafe_query_rejected ⟨Except.ok "DROP TABLE users", Except.ok "No results."⟩
      ⟨true, true⟩ ⟨"drop the users table", "default", []⟩ (by decide)
  exact ⟨by decide, h.2.2.1, h.2.2.2⟩

/-- C3: evaluating `_clean_sql_response` on the raw model output
"```sql\nSELECT 1;\n```" yields "SELECT 1;" — the trailing semicolon
survives, because `rstrip(";")` runs before the final `strip()` while a
newline still follows the semicolon. -/
theorem c3_clean_sql_keeps_trailing_semicolon :
    clean_sql_response "```sql\nSELECT 1;\n```" = "SELECT 1;" := by
  decide

/-- C4: the optimizer never rewrites — the optimized query is the input,
and the reported improvement is always "No optimizations applied". -/
theorem c4_optimize_identity_no_improvement (sql : String) (schema : Option SchemaInfo) :
    (optimize sql schema).optimized_query = sql ∧
    (optimize sql schema).performance_improvement = some "No optimizations applied" := by
  refine ⟨rfl, ?_⟩
  show some (estimate_improvement sql (apply_optimizations sql _)) = _
  unfold apply_optimizations estimate_improvement
  simp

/-- C6: the workflow's execute stage is a placeholder — it always stores
the empty row list, so no response ever carries rows produced by
executing the query (although `manager_execute_query` can produce them). -/
theorem c6_execute_stage_returns_no_rows :
    (∀ st : DatabaseQueryState, (execute_query_node st).query_results = []) ∧
    (∀ (o : LlmOracle) (settings : Settings) (request : QueryRequest),
      (process_query o settings request).results = []) := by
  refine ⟨fun st => rfl, fun o settings request => ?_⟩
  show (run_workflow o settings request).query_results = []
  simp only [run_workflow]
  split
  · rfl
  · rw [validate_safety_node_results, generate_query_node_results]
    rfl

/-- C7: the terminal response aggregates the final state: success holds
exactly when the error list is empty, the reported SQL is the optimized
query when non-empty and otherwise the generated one, and the error field
joins the error strings with "; " or is absent. -/
theorem c7_response_aggregation (o : LlmOracle) (settings : Settings) (request : QueryRequest) :
    ((process_query o settings request).success = true ↔
      (run_workflow o settings request).errors = []) ∧
    (process_query o settings request).sql_query =
      (if (run_workflow o settings request).optimized_sql = ""
       then (run_workflow o settings request).generated_sql
       else (run_workflow o settings request).optimized_sql) ∧
    (process_query o settings request).error =
      (if (run_workflow o settings request).errors = [] then none
       else some (String.intercalate "; " (run_workflow o settings request).errors)) := by
  refine ⟨?_, ?_, ?_⟩
  · show (run_workflow o settings request).errors.isEmpty = true ↔ _
    exact List.isEmpty_iff
  · show (if ((run_workflow o settings request).optimized_sql == "") = true
        then (run_workflow o settings request).generated_sql
        else (run_workflow o settings request).optimized_sql) = _
    by_cases hq : (run_workflow o settings request).optimized_sql = ""
    · rw [if_pos (beq_iff_eq.mpr hq), if_pos hq]
    · rw [if_neg (fun hb => hq (beq_iff_eq.mp hb)), if_neg hq]
  · show (if (run_workflow o settings request).errors.isEmpty = true
        then none
        else some (String.intercalate "; " (run_workflow o settings request).errors)) = _
    by_cases he : (run_workflow o settings request).errors = []
    · rw [if_pos (List.isEmpty_iff.mpr he), if_pos he]
    · rw [if_neg (fun hb => he (List.isEmpty_iff.mp hb)), if_neg he]

/-- C8: when opening the driver handle or probing it fails,
`connect_database` returns `false` and the connection table is unchanged;
a name absent from `list_connections` before is still absent after. -/
theorem c8_connect_failure_unchanged (m : DatabaseManager)
    (connection_string connection_name e : String)
    (h : dictGet (list_connections m) connection_name = none) :
    (connect_database m connection_string connection_name (Except.error e)).2 = false ∧
    list_connections (connect_database m connection_string connection_name (Except.error e)).1 =
      list_connections m ∧
    dictGet (list_connections
        (connect_database m connection_string connection_name (Except.error e)).1)
      connection_name = none :=
  ⟨rfl, rfl, h⟩

/-- Witness for C8: an unopenable sqlite path on a fresh manager. -/
theorem c8_connect_failure_unchanged_witness :
    dictGet (list_connections (⟨[], [], []⟩ : DatabaseManager)) "default" = none ∧
    ((connect_database ⟨[], [], []⟩ "sqlite:///nonexistent-readonly-path" "default"
        (Except.error "unable to open database file")).2 = false ∧
     list_connections (connect_database ⟨[], [], []⟩ "sqlite:///nonexistent-readonly-path"
        "default" (Except.error "unable to open database file")).1 =
       list_connections ⟨[], [], []⟩ ∧
     dictGet (list_connections (connect_database ⟨[], [], []⟩
        "sqlite:///nonexistent-readonly-path" "default"
        (Except.error "unable to open database file")).1) "default" = none) :=
  ⟨rfl, c8_connect_failure_unchanged ⟨[], [], []⟩ "sqlite:///nonexistent-readonly-path"
    "default" "unable to open database file" rfl⟩

/-- C9: an LLM failure is re-raised by the query generator but converted
into a placeholder string by the result explainer — surfaced either way,
never silently dropped. -/
theorem c9_llm_failure_propagation (e : String) :
    generate (Except.error e) = Except.error e ∧
    explain (Except.error e) = "Unable to generate explanation: " ++ e :=
  ⟨rfl, rfl⟩

end AiDbAgent
